import Mathlib

/-!
Verification model of the libfabric transport endpoints of this repository:
the connector endpoint (src/src/transports/libfabric/clibfabric.c) and the
listener endpoint (src/src/transports/libfabric/blibfabric.c).

Both endpoints are single-threaded event-driven state machines.  We embed
each as an executable step function over an explicit machine record.  Calls
into external collaborators (usock, backoff timer, DNS resolver, the
per-connection sub-machines) are recorded as emitted actions; results of
fallible external calls (iface resolution, socket open, bind, listen) are
supplied by an oracle argument, since those collaborators live outside this
repository.  Collaborator idleness bookkeeping is modelled from the spec:
a collaborator becomes idle exactly when it delivers its stopped event
(spec, glossary entry for idle).
-/

namespace Libfabric

/-- Errno value EINVAL as returned negated by the create functions. -/
def EINVAL : Int := 22

/-- Errno value ENODEV as returned negated by the create functions. -/
def ENODEV : Int := 19

/-- Statistics counters of the epbase interface used by the endpoints. -/
inductive Stat
  | inprogress
  | established
  | broken
  | dropped
  | connectErrors
deriving DecidableEq, Repr

/-! ## Connector endpoint (clibfabric.c) -/

/-- States of the connector state machine, NN_CLIBFABRIC_STATE_*. -/
inductive CState
  | idle
  | resolving
  | stoppingDns
  | connecting
  | active
  | stoppingSlib
  | stoppingUsock
  | waiting
  | stoppingBackoff
  | stoppingSlibFinal
  | stopping
deriving DecidableEq, Repr

/-- Events delivered to the connector state machine.  Each constructor is a
(source, type) pair of the C dispatch: for instance slibShutdown is the
(NN_CLIBFABRIC_SRC_SLIBFABRIC, NN_USOCK_SHUTDOWN) case.  The dnsDone event
carries the error field of the dns result slot, which the resolver fills
before raising NN_DNS_DONE. -/
inductive CEv
  | fsmStart
  | fsmStop
  | dnsDone (err : Int)
  | dnsStopped
  | usockConnected
  | usockError
  | usockShutdown
  | usockStopped
  | slibShutdown
  | slibStopped
  | slibError
  | backoffTimeout
  | backoffStopped
deriving DecidableEq, Repr

/-- Calls the connector issues to its collaborators, in program order. -/
inductive CAct
  | dnsStart
  | dnsStop
  | usockStart
  | usockSetSockOpt
  | usockBind
  | usockConnect
  | usockStop
  | backoffStart
  | backoffStop
  | slibStart
  | slibStop
  | statInc (c : Stat) (d : Int)
  | setErr
  | clearErr
  | fsmStoppedNoEvent
  | epStopped
deriving DecidableEq, Repr

/-- Results of the fallible external calls made by
nn_clibfabric_start_connecting: nn_iface_resolve on the local interface,
nn_usock_start and nn_usock_bind. -/
structure COracle where
  ifaceOk : Bool
  usockStartOk : Bool
  bindOk : Bool
deriving DecidableEq, Repr

/-- The nn_clibfabric machine state: the fsm state, the error field of the
dns result slot, and idleness of the four owned collaborators. -/
structure CMach where
  state : CState
  dnsErr : Int
  slibIdle : Bool
  backoffIdle : Bool
  dnsIdle : Bool
  usockIdle : Bool
deriving DecidableEq, Repr

/-- One step of the connector: the machine after the step and the calls the
step issued, in order. -/
structure CStep where
  mach : CMach
  acts : List CAct
deriving DecidableEq, Repr

/-- The connector machine as initialised by nn_clibfabric_create: state
IDLE, all collaborators idle. -/
def cInit : CMach :=
  { state := .idle, dnsErr := 0, slibIdle := true, backoffIdle := true,
    dnsIdle := true, usockIdle := true }

/-- Modelled from the spec: collaborator idleness bookkeeping for the
connector.  The usock, backoff, dns and slibfabric collaborators (absent
from src/) become idle exactly when they deliver their stopped event. -/
def cUpdIdle (m : CMach) : CEv → CMach
  | .dnsStopped => { m with dnsIdle := true }
  | .usockStopped => { m with usockIdle := true }
  | .backoffStopped => { m with backoffIdle := true }
  | .slibStopped => { m with slibIdle := true }
  | _ => m

/-- Embedding of nn_clibfabric_start_resolving: start the DNS query and
move to RESOLVING. -/
def nn_clibfabric_start_resolving (m : CMach) : CStep :=
  ⟨{ m with state := .resolving, dnsIdle := false }, [.dnsStart]⟩

/-- Embedding of nn_clibfabric_start_connecting.  Failure of the local
interface resolution, of nn_usock_start, or of nn_usock_bind each starts
the backoff timer and moves to WAITING; only the full success path issues
the connect and moves to CONNECTING.  Note that the bind failure branch
does not stop the started socket. -/
def nn_clibfabric_start_connecting (m : CMach) (o : COracle) : CStep :=
  if ¬ o.ifaceOk then
    ⟨{ m with state := .waiting, backoffIdle := false }, [.backoffStart]⟩
  else if ¬ o.usockStartOk then
    ⟨{ m with state := .waiting, backoffIdle := false },
      [.usockStart, .backoffStart]⟩
  else if ¬ o.bindOk then
    ⟨{ m with state := .waiting, backoffIdle := false, usockIdle := false },
      [.usockStart, .usockSetSockOpt, .usockSetSockOpt, .usockBind,
        .backoffStart]⟩
  else
    ⟨{ m with state := .connecting, usockIdle := false },
      [.usockStart, .usockSetSockOpt, .usockSetSockOpt, .usockBind,
        .usockConnect, .statInc .inprogress 1]⟩

/-- Embedding of nn_clibfabric_handler.  Returns none where the C code hits
nn_fsm_bad_action, nn_fsm_bad_source or nn_fsm_bad_state (a fatal
assertion). -/
def nn_clibfabric_handler (m : CMach) (e : CEv) (o : COracle) : Option CStep :=
  match m.state with
  | .idle =>
      match e with
      | .fsmStart => some (nn_clibfabric_start_resolving m)
      | _ => none
  | .resolving =>
      match e with
      | .dnsDone err =>
          some ⟨{ m with state := .stoppingDns, dnsErr := err }, [.dnsStop]⟩
      | _ => none
  | .stoppingDns =>
      match e with
      | .dnsStopped =>
          if m.dnsErr = 0 then
            some (nn_clibfabric_start_connecting m o)
          else
            some ⟨{ m with state := .waiting, backoffIdle := false },
              [.backoffStart]⟩
      | _ => none
  | .connecting =>
      match e with
      | .usockConnected =>
          some ⟨{ m with state := .active, slibIdle := false },
            [.slibStart, .statInc .inprogress (-1), .statInc .established 1,
              .clearErr]⟩
      | .usockError =>
          some ⟨{ m with state := .stoppingUsock },
            [.setErr, .usockStop, .statInc .inprogress (-1),
              .statInc .connectErrors 1]⟩
      | _ => none
  | .active =>
      match e with
      | .slibError =>
          some ⟨{ m with state := .stoppingSlib },
            [.slibStop, .statInc .broken 1]⟩
      | _ => none
  | .stoppingSlib =>
      match e with
      | .slibShutdown => some ⟨m, []⟩
      | .slibStopped =>
          some ⟨{ m with state := .stoppingUsock }, [.usockStop]⟩
      | _ => none
  | .stoppingUsock =>
      match e with
      | .usockShutdown => some ⟨m, []⟩
      | .usockStopped =>
          some ⟨{ m with state := .waiting, backoffIdle := false },
            [.backoffStart]⟩
      | _ => none
  | .waiting =>
      match e with
      | .backoffTimeout =>
          some ⟨{ m with state := .stoppingBackoff }, [.backoffStop]⟩
      | _ => none
  | .stoppingBackoff =>
      match e with
      | .backoffStopped => some (nn_clibfabric_start_resolving m)
      | _ => none
  | _ => none

/-- Embedding of nn_clibfabric_shutdown.  The branches fall through exactly
as the if chain of the C code does within one invocation. -/
def nn_clibfabric_shutdown (m : CMach) (e : CEv) : Option CStep :=
  let p1 : CMach × List CAct :=
    if e = .fsmStop then
      if ¬ m.slibIdle then
        ({ m with state := .stoppingSlibFinal },
          [.statInc .dropped 1, .slibStop])
      else
        ({ m with state := .stoppingSlibFinal }, [])
    else (m, [])
  let m1 := p1.1
  let a1 := p1.2
  if m1.state = .stoppingSlibFinal then
    if ¬ m1.slibIdle then
      some ⟨m1, a1⟩
    else
      let m2 : CMach := { m1 with state := .stopping }
      let a2 := a1 ++ [CAct.backoffStop, .usockStop, .dnsStop]
      if ¬ m2.backoffIdle ∨ ¬ m2.usockIdle ∨ ¬ m2.dnsIdle then
        some ⟨m2, a2⟩
      else
        some ⟨{ m2 with state := .idle },
          a2 ++ [.fsmStoppedNoEvent, .epStopped]⟩
  else if m1.state = .stopping then
    if ¬ m1.backoffIdle ∨ ¬ m1.usockIdle ∨ ¬ m1.dnsIdle then
      some ⟨m1, a1⟩
    else
      some ⟨{ m1 with state := .idle },
        a1 ++ [.fsmStoppedNoEvent, .epStopped]⟩
  else none

/-- Modelled from the spec: the fsm runtime (absent from src/) routes the
stop request and, once stopping, every subsequent event to the shutdown
function; all other events go to the handler. -/
def cStep (m0 : CMach) (e : CEv) (o : COracle) : Option CStep :=
  let m := cUpdIdle m0 e
  if e = .fsmStop ∨ m.state = .stoppingSlibFinal ∨ m.state = .stopping then
    nn_clibfabric_shutdown m e
  else
    nn_clibfabric_handler m e o

/-- Run the connector over a trace of events with their oracles; none if
any step hits a fatal assertion. -/
def cRun : CMach → List (CEv × COracle) → Option CMach
  | m, [] => some m
  | m, (e, o) :: tr =>
      match cStep m e o with
      | none => none
      | some s => cRun s.mach tr

/-! ## Listener endpoint (blibfabric.c) -/

/-- States of the listener state machine, NN_BLIBFABRIC_STATE_*.  The
listening constructor is declared in the C source but never entered. -/
inductive BState
  | idle
  | active
  | stoppingAlib
  | stoppingUsock
  | stoppingAlibs
  | listening
  | waiting
  | closing
  | stoppingBackoff
deriving DecidableEq, Repr

/-- Events delivered to the listener state machine.  Events from the
alibfabric sub-machines carry the identity of the emitting sub-machine
(the srcptr of the C dispatch). -/
inductive BEv
  | fsmStart
  | fsmStop
  | alibAccepted (i : Nat)
  | alibError (i : Nat)
  | alibStopped (i : Nat)
  | usockShutdown
  | usockStopped
  | backoffTimeout
  | backoffStopped
deriving DecidableEq, Repr

/-- Calls the listener issues to its collaborators, in program order, plus
the release steps of nn_blibfabric_destroy. -/
inductive BAct
  | usockStart
  | usockBind
  | usockListen
  | usockStop
  | backoffStart
  | backoffStop
  | alibAlloc (i : Nat)
  | alibInit (i : Nat)
  | alibStart (i : Nat)
  | alibStop (i : Nat)
  | alibTerm (i : Nat)
  | alibFree (i : Nat)
  | listInsert (i : Nat)
  | listErase (i : Nat)
  | fsmStoppedNoEvent
  | epStopped
  | listRelease
  | usockRelease
  | backoffRelease
  | epbaseRelease
  | fsmRelease
  | objFree
deriving DecidableEq, Repr

/-- Results of the fallible external calls made by
nn_blibfabric_start_listening: nn_iface_resolve (whose failure there is a
fatal errnum_assert), nn_usock_start, nn_usock_bind and nn_usock_listen. -/
structure BOracle where
  ifaceOk : Bool
  usockStartOk : Bool
  bindOk : Bool
  listenOk : Bool
deriving DecidableEq, Repr

/-- The nn_blibfabric machine state: the fsm state, the pending acceptor
slot (field alibfabric), the established list (field alibfabrics), an
allocation counter giving fresh sub-machine identities, and idleness of the
collaborators. -/
structure BMach where
  state : BState
  alib : Option Nat
  alibs : List Nat
  nextId : Nat
  pendingIdle : Bool
  usockIdle : Bool
  backoffIdle : Bool
deriving DecidableEq, Repr

/-- One step of the listener. -/
structure BStep where
  mach : BMach
  acts : List BAct
deriving DecidableEq, Repr

/-- The listener machine as initialised by nn_blibfabric_create: state
IDLE, no pending acceptor, empty list, all collaborators idle. -/
def bInit : BMach :=
  { state := .idle, alib := none, alibs := [], nextId := 0,
    pendingIdle := true, usockIdle := true, backoffIdle := true }

/-- Modelled from the spec: collaborator idleness bookkeeping for the
listener.  A collaborator becomes idle exactly when it delivers its
stopped event; for the pending acceptor this is the alibStopped event of
the sub-machine currently held in the slot. -/
def bUpdIdle (m : BMach) : BEv → BMach
  | .alibStopped i => if m.alib = some i then { m with pendingIdle := true } else m
  | .usockStopped => { m with usockIdle := true }
  | .backoffStopped => { m with backoffIdle := true }
  | _ => m

/-- Embedding of nn_blibfabric_start_accepting: assert the slot is empty,
allocate and initialise a fresh alibfabric sub-machine and start it on the
listening socket. -/
def nn_blibfabric_start_accepting (m : BMach) : Option (BMach × List BAct) :=
  match m.alib with
  | some _ => none
  | none =>
      some ({ m with alib := some m.nextId, nextId := m.nextId + 1,
                     pendingIdle := false },
        [.alibAlloc m.nextId, .alibInit m.nextId, .alibStart m.nextId])

/-- Embedding of nn_blibfabric_start_listening.  Failure of nn_usock_start
starts the backoff timer and moves to WAITING without any socket to stop;
failure of bind or listen stops the started socket and moves to CLOSING;
on full success an acceptor is started and the state becomes ACTIVE.
Failure of the interface resolution is a fatal errnum_assert. -/
def nn_blibfabric_start_listening (m : BMach) (o : BOracle) : Option BStep :=
  if ¬ o.ifaceOk then none
  else if ¬ o.usockStartOk then
    some ⟨{ m with state := .waiting, backoffIdle := false },
      [.usockStart, .backoffStart]⟩
  else if ¬ o.bindOk then
    some ⟨{ m with state := .closing, usockIdle := false },
      [.usockStart, .usockBind, .usockStop]⟩
  else if ¬ o.listenOk then
    some ⟨{ m with state := .closing, usockIdle := false },
      [.usockStart, .usockBind, .usockListen, .usockStop]⟩
  else
    match nn_blibfabric_start_accepting { m with usockIdle := false } with
    | none => none
    | some (m2, acts) =>
        some ⟨{ m2 with state := .active },
          [.usockStart, .usockBind, .usockListen] ++ acts⟩

/-- Embedding of nn_blibfabric_handler.  Returns none where the C code hits
a fatal assertion (bad action, bad source, bad state, or an event in
ACTIVE whose source is not an alibfabric sub-machine). -/
def nn_blibfabric_handler (m : BMach) (e : BEv) (o : BOracle) : Option BStep :=
  match m.state with
  | .idle =>
      match e with
      | .fsmStart => nn_blibfabric_start_listening m o
      | _ => none
  | .active =>
      match e with
      | .alibAccepted i =>
          if m.alib = some i then
            match nn_blibfabric_start_accepting { m with alibs := m.alibs ++ [i], alib := none } with
            | none => none
            | some (m2, acts) => some ⟨m2, .listInsert i :: acts⟩
          else none
      | .alibError i =>
          if m.alib = some i then none
          else some ⟨m, [.alibStop i]⟩
      | .alibStopped i =>
          if m.alib = some i then none
          else
            some ⟨{ m with alibs := m.alibs.erase i },
              [.listErase i, .alibTerm i, .alibFree i]⟩
      | _ => none
  | .closing =>
      match e with
      | .usockShutdown => some ⟨m, []⟩
      | .usockStopped =>
          some ⟨{ m with state := .waiting, backoffIdle := false },
            [.backoffStart]⟩
      | _ => none
  | .waiting =>
      match e with
      | .backoffTimeout =>
          some ⟨{ m with state := .stoppingBackoff }, [.backoffStop]⟩
      | _ => none
  | .stoppingBackoff =>
      match e with
      | .backoffStopped => nn_blibfabric_start_listening m o
      | _ => none
  | _ => none

/-- Shared tail of nn_blibfabric_shutdown, the alibfabrics_stopping label:
once the established list is empty the endpoint reports itself stopped. -/
def bFinishStopping (m : BMach) (a : List BAct) : BStep :=
  if m.alibs.isEmpty then
    ⟨{ m with state := .idle }, a ++ [.fsmStoppedNoEvent, .epStopped]⟩
  else ⟨m, a⟩

/-- The STOPPING_USOCK branch of nn_blibfabric_shutdown: once the usock is
idle, request stop on every established sub-machine and fall through to
the alibfabrics_stopping label. -/
def bStoppingUsock (m : BMach) (a : List BAct) : BStep :=
  if ¬ m.usockIdle then ⟨m, a⟩
  else
    bFinishStopping { m with state := .stoppingAlibs }
      (a ++ m.alibs.map (fun i => BAct.alibStop i))

/-- Embedding of nn_blibfabric_shutdown.  The branches fall through exactly
as the if chain of the C code does within one invocation. -/
def nn_blibfabric_shutdown (m : BMach) (e : BEv) : Option BStep :=
  let p1 : BMach × List BAct :=
    if e = .fsmStop then
      match m.alib with
      | some i =>
          ({ m with state := .stoppingAlib }, [BAct.backoffStop, .alibStop i])
      | none => ({ m with state := .stoppingUsock }, [BAct.backoffStop])
    else (m, [])
  let m1 := p1.1
  let a1 := p1.2
  if m1.state = .stoppingAlib then
    if ¬ m1.pendingIdle then
      some ⟨m1, a1⟩
    else
      match m1.alib with
      | none => none
      | some i =>
          some (bStoppingUsock
            { m1 with alib := none, state := .stoppingUsock }
            (a1 ++ [BAct.alibTerm i, .alibFree i, .usockStop]))
  else if m1.state = .stoppingUsock then
    some (bStoppingUsock m1 a1)
  else if m1.state = .stoppingAlibs then
    match e with
    | .alibStopped i =>
        some (bFinishStopping { m1 with alibs := m1.alibs.erase i }
          (a1 ++ [BAct.listErase i, .alibTerm i, .alibFree i]))
    | _ => none
  else none

/-- Modelled from the spec: the fsm runtime (absent from src/) routes the
stop request and, once stopping, every subsequent event to the shutdown
function; all other events go to the handler. -/
def bStep (m0 : BMach) (e : BEv) (o : BOracle) : Option BStep :=
  let m := bUpdIdle m0 e
  if e = .fsmStop ∨ m.state = .stoppingAlib ∨ m.state = .stoppingUsock ∨
      m.state = .stoppingAlibs then
    nn_blibfabric_shutdown m e
  else
    nn_blibfabric_handler m e o

/-- Run the listener over a trace of events with their oracles; none if any
step hits a fatal assertion. -/
def bRun : BMach → List (BEv × BOracle) → Option BMach
  | m, [] => some m
  | m, (e, o) :: tr =>
      match bStep m e o with
      | none => none
      | some s => bRun s.mach tr

/-- Embedding of nn_blibfabric_destroy: assert the state is IDLE, assert
the pending acceptor slot is NULL, then release all owned resources and
free the object.  Returns none (a fatal assertion, nothing freed) when a
precondition fails. -/
def nn_blibfabric_destroy (m : BMach) : Option (List BAct) :=
  if m.state ≠ BState.idle then none
  else if m.alib ≠ none then none
  else
    some [.listRelease, .usockRelease, .backoffRelease, .epbaseRelease,
      .fsmRelease, .objFree]

/-! ## Endpoint creation (nn_clibfabric_create / nn_blibfabric_create) -/

/-- Outcome of a create call: the synchronous return value, whether
nn_epbase_term was called on the partially-initialised base, whether
nn_fsm_start was invoked, and the (base, maximum) interval pair passed to
nn_backoff_init when reached. -/
structure CreateOut where
  ret : Int
  epbaseTermed : Bool
  fsmStarted : Bool
  backoffArgs : Option (Int × Int)
deriving DecidableEq, Repr

/-- Abstract outcomes of the external helpers consulted by
nn_clibfabric_create on a given address string, together with the two
reconnect options read from the epbase. -/
structure CCreateIn where
  hasColon : Bool
  portRc : Int
  dnsCheckRc : Int
  literalRc : Int
  hasSemicolon : Bool
  ifaceRc : Int
  reconnectIvl : Int
  reconnectIvlMax : Int
deriving DecidableEq, Repr

/-- Embedding of nn_clibfabric_create: port segment missing or invalid and
an unusable host segment return -EINVAL, an unresolvable local interface
returns -ENODEV, each after terminating the epbase and without starting
the fsm; only the success path initialises the collaborators (treating a
zero maximum reconnect interval as the base interval) and starts the
fsm. -/
def nn_clibfabric_create (i : CCreateIn) : CreateOut :=
  if ¬ i.hasColon then ⟨-EINVAL, true, false, none⟩
  else if i.portRc < 0 then ⟨-EINVAL, true, false, none⟩
  else if i.dnsCheckRc < 0 ∧ i.literalRc < 0 then ⟨-EINVAL, true, false, none⟩
  else if i.hasSemicolon ∧ i.ifaceRc < 0 then ⟨-ENODEV, true, false, none⟩
  else
    ⟨0, false, true,
      some (i.reconnectIvl,
        if i.reconnectIvlMax = 0 then i.reconnectIvl else i.reconnectIvlMax)⟩

/-- Abstract outcomes of the external helpers consulted by
nn_blibfabric_create. -/
structure BCreateIn where
  hasColon : Bool
  portRc : Int
  ifaceRc : Int
  reconnectIvl : Int
  reconnectIvlMax : Int
deriving DecidableEq, Repr

/-- Embedding of nn_blibfabric_create: port segment missing or invalid
returns -EINVAL, an unresolvable interface returns -ENODEV, each after
terminating the epbase and without starting the fsm; only the success path
initialises the collaborators (treating a zero maximum reconnect interval
as the base interval) and starts the fsm. -/
def nn_blibfabric_create (i : BCreateIn) : CreateOut :=
  if ¬ i.hasColon then ⟨-EINVAL, true, false, none⟩
  else if i.portRc < 0 then ⟨-EINVAL, true, false, none⟩
  else if i.ifaceRc < 0 then ⟨-ENODEV, true, false, none⟩
  else
    ⟨0, false, true,
      some (i.reconnectIvl,
        if i.reconnectIvlMax = 0 then i.reconnectIvl else i.reconnectIvlMax)⟩

/-! ## Theorems -/

/-- C7: for both endpoint kinds, a zero configured maximum backoff interval
is replaced at creation time by the base interval (so the backoff timer is
initialised with maximum equal to base and no interval growth), and every
non-zero configured maximum is passed through to the backoff timer
unchanged together with the base. -/
theorem c7_backoff_max_zero :
    (∀ i : CCreateIn, (nn_clibfabric_create i).ret = 0 →
      ((i.reconnectIvlMax = 0 →
          (nn_clibfabric_create i).backoffArgs =
            some (i.reconnectIvl, i.reconnectIvl)) ∧
        (i.reconnectIvlMax ≠ 0 →
          (nn_clibfabric_create i).backoffArgs =
            some (i.reconnectIvl, i.reconnectIvlMax)))) ∧
    (∀ i : BCreateIn, (nn_blibfabric_create i).ret = 0 →
      ((i.reconnectIvlMax = 0 →
          (nn_blibfabric_create i).backoffArgs =
            some (i.reconnectIvl, i.reconnectIvl)) ∧
        (i.reconnectIvlMax ≠ 0 →
          (nn_blibfabric_create i).backoffArgs =
            some (i.reconnectIvl, i.reconnectIvlMax)))) := by
  constructor
  · intro i _
    unfold nn_clibfabric_create at *
    constructor
    · intro hz
      split_ifs at * <;> simp_all [EINVAL, ENODEV]
    · intro hz
      split_ifs at * <;> simp_all [EINVAL, ENODEV]
  · intro i _
    unfold nn_blibfabric_create at *
    constructor
    · intro hz
      split_ifs at * <;> simp_all [EINVAL, ENODEV]
    · intro hz
      split_ifs at * <;> simp_all [EINVAL, ENODEV]

/-- Witness for C7 at a concrete configuration: base 100 with configured
maximum 0 yields backoff parameters (100, 100) for the connector, and
base 100 with maximum 700 passes through unchanged for the listener. -/
theorem c7_backoff_max_zero_witness :
    (nn_clibfabric_create ⟨true, 5555, 0, 0, false, 0, 100, 0⟩).backoffArgs =
      some (100, 100) ∧
    (nn_blibfabric_create ⟨true, 5555, 0, 100, 700⟩).backoffArgs =
      some (100, 700) :=
  ⟨(c7_backoff_max_zero.1 ⟨true, 5555, 0, 0, false, 0, 100, 0⟩
      (by decide)).1 (by decide),
    (c7_backoff_max_zero.2 ⟨true, 5555, 0, 100, 700⟩
      (by decide)).2 (by decide)⟩

/-- C9: for both create functions, a missing or invalid port segment, an
unusable host segment, or an unresolvable interface segment makes creation
fail synchronously with -EINVAL or -ENODEV, terminating the epbase and
never starting the state machine; the state machine is started exactly on
the paths returning 0. -/
theorem c9_create_errors :
    (∀ i : CCreateIn,
      ((¬ i.hasColon = true ∨ i.portRc < 0 ∨
          (i.dnsCheckRc < 0 ∧ i.literalRc < 0) ∨
          (i.hasSemicolon = true ∧ i.ifaceRc < 0)) →
        ((nn_clibfabric_create i).ret = -EINVAL ∨
            (nn_clibfabric_create i).ret = -ENODEV) ∧
          (nn_clibfabric_create i).epbaseTermed = true ∧
          (nn_clibfabric_create i).fsmStarted = false) ∧
      ((nn_clibfabric_create i).fsmStarted = true ↔
        (nn_clibfabric_create i).ret = 0)) ∧
    (∀ i : BCreateIn,
      ((¬ i.hasColon = true ∨ i.portRc < 0 ∨ i.ifaceRc < 0) →
        ((nn_blibfabric_create i).ret = -EINVAL ∨
            (nn_blibfabric_create i).ret = -ENODEV) ∧
          (nn_blibfabric_create i).epbaseTermed = true ∧
          (nn_blibfabric_create i).fsmStarted = false) ∧
      ((nn_blibfabric_create i).fsmStarted = true ↔
        (nn_blibfabric_create i).ret = 0)) := by
  constructor
  · intro i
    unfold nn_clibfabric_create
    constructor
    · intro h
      split_ifs with h1 h2 h3 h4 <;> simp_all [EINVAL, ENODEV]
    · split_ifs <;> simp [EINVAL, ENODEV]
  · intro i
    unfold nn_blibfabric_create
    constructor
    · intro h
      split_ifs with h1 h2 h3 <;> simp_all [EINVAL, ENODEV]
    · split_ifs <;> simp [EINVAL, ENODEV]

/-- Witness for C9 at concrete inputs: an invalid port makes the connector
create fail with -EINVAL without starting the fsm, and an unresolvable
interface makes the listener create fail with -ENODEV without starting the
fsm; a fully valid input starts the fsm and returns 0. -/
theorem c9_create_errors_witness :
    (((nn_clibfabric_create ⟨true, -1, 0, 0, false, 0, 100, 0⟩).ret = -EINVAL ∨
        (nn_clibfabric_create ⟨true, -1, 0, 0, false, 0, 100, 0⟩).ret = -ENODEV) ∧
      (nn_clibfabric_create ⟨true, -1, 0, 0, false, 0, 100, 0⟩).epbaseTermed = true ∧
      (nn_clibfabric_create ⟨true, -1, 0, 0, false, 0, 100, 0⟩).fsmStarted = false) ∧
    (((nn_blibfabric_create ⟨true, 5555, -1, 100, 0⟩).ret = -EINVAL ∨
        (nn_blibfabric_create ⟨true, 5555, -1, 100, 0⟩).ret = -ENODEV) ∧
      (nn_blibfabric_create ⟨true, 5555, -1, 100, 0⟩).epbaseTermed = true ∧
      (nn_blibfabric_create ⟨true, 5555, -1, 100, 0⟩).fsmStarted = false) :=
  ⟨(c9_create_errors.1 ⟨true, -1, 0, 0, false, 0, 100, 0⟩).1
      (Or.inr (Or.inl (by decide))),
    (c9_create_errors.2 ⟨true, 5555, -1, 100, 0⟩).1
      (Or.inr (Or.inr (by decide)))⟩

/-- C10: destroying the listener endpoint succeeds (and only then releases
resources and frees the object) exactly when the endpoint state is IDLE
and the pending-accept slot is NULL; in every other configuration the
destroy is a fatal assertion and nothing is freed. -/
theorem c10_destroy_requires_idle (m : BMach) :
    ((nn_blibfabric_destroy m).isSome ↔
      (m.state = BState.idle ∧ m.alib = none)) ∧
    (¬ (m.state = BState.idle ∧ m.alib = none) →
      nn_blibfabric_destroy m = none) ∧
    (∀ acts, nn_blibfabric_destroy m = some acts → BAct.objFree ∈ acts) := by
  unfold nn_blibfabric_destroy
  refine ⟨?_, ?_, ?_⟩
  · split_ifs with h1 h2 <;> simp_all
  · intro h
    split_ifs with h1 h2 <;> simp_all
  · intro acts h
    split_ifs at h
    rw [Option.some_inj] at h
    rw [← h]
    decide

/-- Witness for C10 at concrete machines: destroy on the initial idle
machine succeeds, and destroy on a machine still in the ACTIVE state with
a pending acceptor is a fatal assertion. -/
theorem c10_destroy_requires_idle_witness :
    (nn_blibfabric_destroy bInit).isSome ∧
    nn_blibfabric_destroy
      { bInit with state := BState.active, alib := some 0 } = none :=
  ⟨(c10_destroy_requires_idle bInit).1.mpr (by decide),
    (c10_destroy_requires_idle
        { bInit with state := BState.active, alib := some 0 }).2.1
      (by decide)⟩

set_option maxHeartbeats 1000000 in
/-- A connect is issued only from the STOPPING_DNS state, on the resolver
stopped event, with a zero error in the delivered result. -/
theorem cStep_connect_only_after_dns (m : CMach) (e : CEv) (o : COracle)
    (s : CStep) (hs : cStep m e o = some s)
    (hc : CAct.usockConnect ∈ s.acts) :
    m.state = CState.stoppingDns ∧ e = CEv.dnsStopped ∧ m.dnsErr = 0 := by
  obtain ⟨st, de, si, bi, di, ui⟩ := m
  cases e <;> cases st <;>
    simp_all [cStep, cUpdIdle, nn_clibfabric_handler, nn_clibfabric_shutdown,
      nn_clibfabric_start_resolving, nn_clibfabric_start_connecting] <;>
    (try split_ifs at hs) <;> (try simp at hs) <;> (try subst hs) <;>
    simp_all

/-- C8: a socket error received while CONNECTING increments the
connect-errors counter, decrements in-progress connections, stops the
socket, and moves to STOPPING_USOCK; from CONNECTING the only event that
reaches ACTIVE is the connected event. -/
theorem c8_connect_error_stats (m : CMach) (o : COracle)
    (h : m.state = CState.connecting) :
    (cStep m .usockError o =
      some ⟨{ m with state := CState.stoppingUsock },
        [CAct.setErr, CAct.usockStop, CAct.statInc Stat.inprogress (-1),
          CAct.statInc Stat.connectErrors 1]⟩) ∧
    (∀ e s, cStep m e o = some s → s.mach.state = CState.active →
      e = CEv.usockConnected) := by
  obtain ⟨st, de, si, bi, di, ui⟩ := m
  simp only at h
  subst h
  constructor
  · simp [cStep, cUpdIdle, nn_clibfabric_handler]
  · intro e s hs hact
    cases e <;>
      simp_all [cStep, cUpdIdle, nn_clibfabric_handler,
        nn_clibfabric_shutdown] <;>
      (try split_ifs at hs) <;> (try simp at hs) <;> (try subst hs) <;>
    simp_all

/-- Witness for C8: the concrete CONNECTING machine on a socket error. -/
theorem c8_connect_error_stats_witness :
    cStep { cInit with state := CState.connecting } .usockError
        ⟨true, true, true⟩ =
      some ⟨{ cInit with state := CState.stoppingUsock },
        [CAct.setErr, CAct.usockStop, CAct.statInc Stat.inprogress (-1),
          CAct.statInc Stat.connectErrors 1]⟩ :=
  (c8_connect_error_stats { cInit with state := CState.connecting }
    ⟨true, true, true⟩ rfl).1

/-- C6: the DNS done event never connects directly; it stops the resolver
and records the result, moving to STOPPING_DNS.  Only the resolver stopped
event with a zero recorded error proceeds to connect; a non-zero recorded
error starts the backoff timer and moves to WAITING.  Globally, a connect
is issued only in STOPPING_DNS on the resolver stopped event with zero
error. -/
theorem c6_resolver_two_preconditions (m : CMach) (o : COracle) :
    (∀ err, m.state = CState.resolving →
      cStep m (.dnsDone err) o =
        some ⟨{ m with state := CState.stoppingDns, dnsErr := err },
          [CAct.dnsStop]⟩) ∧
    (m.state = CState.stoppingDns → m.dnsErr ≠ 0 →
      cStep m .dnsStopped o =
        some ⟨{ m with
            state := CState.waiting, dnsIdle := true, backoffIdle := false },
          [CAct.backoffStart]⟩) ∧
    (∀ e s, cStep m e o = some s → CAct.usockConnect ∈ s.acts →
      m.state = CState.stoppingDns ∧ e = CEv.dnsStopped ∧ m.dnsErr = 0) := by
  refine ⟨?_, ?_, fun e s hs hc => cStep_connect_only_after_dns m e o s hs hc⟩
  · intro err h
    obtain ⟨st, de, si, bi, di, ui⟩ := m
    simp only at h
    subst h
    simp [cStep, cUpdIdle, nn_clibfabric_handler]
  · intro h hne
    obtain ⟨st, de, si, bi, di, ui⟩ := m
    simp only at h hne
    subst h
    simp [cStep, cUpdIdle, nn_clibfabric_handler, hne]

/-- Witness for C6: a resolving machine receiving a done event with a
failed result, then the stopped event, ends waiting with the backoff
started. -/
theorem c6_resolver_two_preconditions_witness :
    (cStep { cInit with state := CState.resolving } (.dnsDone 5)
        ⟨true, true, true⟩ =
      some ⟨{ cInit with state := CState.stoppingDns, dnsErr := 5 },
        [CAct.dnsStop]⟩) ∧
    (cStep { cInit with state := CState.stoppingDns, dnsErr := 5 }
        .dnsStopped ⟨true, true, true⟩ =
      some ⟨{ cInit with
          state := CState.waiting, dnsErr := 5, backoffIdle := false },
        [CAct.backoffStart]⟩) :=
  ⟨(c6_resolver_two_preconditions { cInit with state := CState.resolving }
      ⟨true, true, true⟩).1 5 rfl,
    (c6_resolver_two_preconditions
      { cInit with state := CState.stoppingDns, dnsErr := 5 }
      ⟨true, true, true⟩).2.1 rfl (by decide)⟩

/-- States of the connector from which no connect can be issued without a
new DNS resolution being started first. -/
def cPreResolve (st : CState) : Bool :=
  match st with
  | .stoppingSlib | .stoppingUsock | .waiting | .stoppingBackoff
  | .stoppingSlibFinal | .stopping | .idle => true
  | _ => false

/-- Over a trace run from machine m, no connect is issued by any step
before some step starts a DNS resolution (a step that hits a fatal
assertion ends the trace). -/
def noConnectBeforeResolve : CMach → List (CEv × COracle) → Prop
  | _, [] => True
  | m, (e, o) :: tr =>
      ∀ s, cStep m e o = some s →
        CAct.usockConnect ∉ s.acts ∧
        (CAct.dnsStart ∈ s.acts ∨ noConnectBeforeResolve s.mach tr)

/-- The pre-resolve states are closed under steps that do not start a DNS
resolution. -/
theorem cPreResolve_closed (m : CMach) (e : CEv) (o : COracle) (s : CStep)
    (hs : cStep m e o = some s) (hm : cPreResolve m.state = true)
    (hd : CAct.dnsStart ∉ s.acts) : cPreResolve s.mach.state = true := by
  obtain ⟨st, de, si, bi, di, ui⟩ := m
  cases e <;> cases st <;>
    simp_all [cStep, cUpdIdle, cPreResolve, nn_clibfabric_handler,
      nn_clibfabric_shutdown, nn_clibfabric_start_resolving,
      nn_clibfabric_start_connecting] <;>
    (try split_ifs at hs) <;> (try simp at hs) <;> (try subst hs) <;>
    simp_all [cPreResolve]

/-- From any pre-resolve state, every trace issues a DNS resolution before
any connect. -/
theorem noConnect_of_cPreResolve (tr : List (CEv × COracle)) :
    ∀ m : CMach, cPreResolve m.state = true →
      noConnectBeforeResolve m tr := by
  induction tr with
  | nil => intro m _; trivial
  | cons p tr ih =>
      intro m hm
      obtain ⟨e, o⟩ := p
      intro s hs
      constructor
      · intro hc
        have h3 := cStep_connect_only_after_dns m e o s hs hc
        rw [h3.1] at hm
        simp [cPreResolve] at hm
      · by_cases hd : CAct.dnsStart ∈ s.acts
        · exact Or.inl hd
        · exact Or.inr (ih s.mach (cPreResolve_closed m e o s hs hm hd))

/-- C5: a sub-machine error in ACTIVE stops the sub-machine and moves to
STOPPING_SLIBFABRIC; the sub-machine stopped event then stops the socket;
the socket stopped event then starts the backoff wait; and from the moment
of the error, no connect can be issued on any continuation of the trace
before a new DNS resolution is started. -/
theorem c5_active_error_reresolves (m : CMach) (o : COracle) :
    (m.state = CState.active →
      cStep m .slibError o =
        some ⟨{ m with state := CState.stoppingSlib },
          [CAct.slibStop, CAct.statInc Stat.broken 1]⟩ ∧
      (∀ tr, noConnectBeforeResolve
        { m with state := CState.stoppingSlib } tr)) ∧
    (m.state = CState.stoppingSlib →
      cStep m .slibStopped o =
        some ⟨{ m with state := CState.stoppingUsock, slibIdle := true },
          [CAct.usockStop]⟩) ∧
    (m.state = CState.stoppingUsock →
      cStep m .usockStopped o =
        some ⟨{ m with
            state := CState.waiting, usockIdle := true,
            backoffIdle := false },
          [CAct.backoffStart]⟩) := by
  obtain ⟨st, de, si, bi, di, ui⟩ := m
  refine ⟨?_, ?_, ?_⟩ <;> intro h <;> simp only at h <;> subst h
  · exact ⟨by simp [cStep, cUpdIdle, nn_clibfabric_handler],
      fun tr => noConnect_of_cPreResolve tr _ rfl⟩
  · simp [cStep, cUpdIdle, nn_clibfabric_handler]
  · simp [cStep, cUpdIdle, nn_clibfabric_handler]

/-- Witness for C5: the concrete ACTIVE machine on a sub-machine error,
followed by the stopped events, with a concrete continuation trace. -/
theorem c5_active_error_reresolves_witness :
    (cStep { cInit with state := CState.active, slibIdle := false }
        .slibError ⟨true, true, true⟩ =
      some ⟨{ cInit with state := CState.stoppingSlib, slibIdle := false },
        [CAct.slibStop, CAct.statInc Stat.broken 1]⟩) ∧
    noConnectBeforeResolve
      { cInit with state := CState.stoppingSlib, slibIdle := false }
      [(.slibStopped, ⟨true, true, true⟩),
        (.usockStopped, ⟨true, true, true⟩)] ∧
    (cStep { cInit with state := CState.stoppingSlib, slibIdle := false }
        .slibStopped ⟨true, true, true⟩ =
      some ⟨{ cInit with state := CState.stoppingUsock },
        [CAct.usockStop]⟩) :=
  ⟨((c5_active_error_reresolves
      { cInit with state := CState.active, slibIdle := false }
      ⟨true, true, true⟩).1 rfl).1,
    ((c5_active_error_reresolves
      { cInit with state := CState.active, slibIdle := false }
      ⟨true, true, true⟩).1 rfl).2 _,
    (c5_active_error_reresolves
      { cInit with state := CState.stoppingSlib, slibIdle := false }
      ⟨true, true, true⟩).2.1 rfl⟩

/-- Run the connector over a trace collecting the machine and every call
issued along the way, in order. -/
def cRunActs : CMach → List (CEv × COracle) → Option (CMach × List CAct)
  | m, [] => some (m, [])
  | m, (e, o) :: tr =>
      match cStep m e o with
      | none => none
      | some s =>
          match cRunActs s.mach tr with
          | none => none
          | some p => some (p.1, s.acts ++ p.2)

/-- A full connector trace in which the first connect attempt fails at the
local bind sub-step and the retry cycle then reaches a second connect
attempt: start, resolve, bind failure, backoff timeout, backoff stopped,
resolve again, resolver stopped with success. -/
def c1Trace : List (CEv × COracle) :=
  [(.fsmStart, ⟨true, true, true⟩),
    (.dnsDone 0, ⟨true, true, true⟩),
    (.dnsStopped, ⟨true, true, false⟩),
    (.backoffTimeout, ⟨true, true, true⟩),
    (.backoffStopped, ⟨true, true, true⟩),
    (.dnsDone 0, ⟨true, true, true⟩),
    (.dnsStopped, ⟨true, true, true⟩)]

/-- C1 counterexample: on the concrete trace c1Trace the run ends in
CONNECTING having called socket start twice and socket stop never — the
socket opened and configured by the failed (bind) attempt is reused by the
next connect attempt without ever being stopped, contradicting the claim
that a partially-configured socket is stopped before any subsequent
connect attempt reuses it. -/
theorem c1_counterexample :
    (cRunActs cInit c1Trace).map
        (fun p => (p.1.state, p.2.count CAct.usockStart,
          p.2.count CAct.usockStop, p.2.count CAct.usockConnect)) =
      some (CState.connecting, 2, 0, 1) := by decide

/-- C1 as amended: each failure among the three checked connect sub-steps
(local interface resolution, socket open, local bind) routes uniformly to
starting the backoff timer and entering WAITING, and the step issues no
connect; however no socket stop is issued either, so the socket started by
a failed bind sub-step stays started into the retry. -/
theorem c1_connect_substep_failures (m : CMach) (o : COracle)
    (h : o.ifaceOk = false ∨ o.usockStartOk = false ∨ o.bindOk = false) :
    (nn_clibfabric_start_connecting m o).mach.state = CState.waiting ∧
    CAct.backoffStart ∈ (nn_clibfabric_start_connecting m o).acts ∧
    CAct.usockConnect ∉ (nn_clibfabric_start_connecting m o).acts ∧
    CAct.usockStop ∉ (nn_clibfabric_start_connecting m o).acts := by
  obtain ⟨i, u, b⟩ := o
  simp only at h
  rcases h with h | h | h <;> subst h <;>
    simp [nn_clibfabric_start_connecting] <;> split_ifs <;> simp_all

/-- Witness for the amended C1 at the concrete bind-failure oracle. -/
theorem c1_connect_substep_failures_witness :
    (nn_clibfabric_start_connecting cInit ⟨true, true, false⟩).mach.state =
        CState.waiting ∧
    CAct.backoffStart ∈
        (nn_clibfabric_start_connecting cInit ⟨true, true, false⟩).acts ∧
    CAct.usockConnect ∉
        (nn_clibfabric_start_connecting cInit ⟨true, true, false⟩).acts ∧
    CAct.usockStop ∉
        (nn_clibfabric_start_connecting cInit ⟨true, true, false⟩).acts :=
  c1_connect_substep_failures cInit ⟨true, true, false⟩
    (Or.inr (Or.inr rfl))

/-- C2 counterexample: when the socket open sub-step fails during the
listener start, the very same step starts the backoff timer and enters
WAITING, and no socket stop is issued before that — contradicting the
claim that any failure at open, bind or listen first stops the socket and
only then enters the timed backoff wait. -/
theorem c2_counterexample :
    (bStep bInit .fsmStart ⟨true, false, true, true⟩).map
        (fun s => (s.mach.state, s.acts)) =
      some (BState.waiting, [BAct.usockStart, BAct.backoffStart]) := by
  decide

/-- C2 as amended: a bind or listen failure during the listener start
stops the started socket in the same step and enters CLOSING without
starting the backoff timer; the backoff timer is started and WAITING is
entered only once the socket reports stopped; an open failure leaves no
socket to stop and enters the backoff wait directly. -/
theorem c2_listen_failures (m : BMach) (o : BOracle) (hi : o.ifaceOk = true) :
    (o.usockStartOk = false →
      nn_blibfabric_start_listening m o =
        some ⟨{ m with state := BState.waiting, backoffIdle := false },
          [BAct.usockStart, BAct.backoffStart]⟩) ∧
    (o.usockStartOk = true → o.bindOk = false →
      nn_blibfabric_start_listening m o =
        some ⟨{ m with state := BState.closing, usockIdle := false },
          [BAct.usockStart, BAct.usockBind, BAct.usockStop]⟩) ∧
    (o.usockStartOk = true → o.bindOk = true → o.listenOk = false →
      nn_blibfabric_start_listening m o =
        some ⟨{ m with state := BState.closing, usockIdle := false },
          [BAct.usockStart, BAct.usockBind, BAct.usockListen,
            BAct.usockStop]⟩) ∧
    (m.state = BState.closing →
      ∀ oz, bStep m .usockStopped oz =
        some ⟨{ m with
            state := BState.waiting, usockIdle := true,
            backoffIdle := false },
          [BAct.backoffStart]⟩) := by
  obtain ⟨st, al, als, ni, pi, ui, bi⟩ := m
  obtain ⟨fi, fu, fb, fl⟩ := o
  simp only at hi
  subst hi
  refine ⟨?_, ?_, ?_, ?_⟩
  · intro h
    subst h
    simp [nn_blibfabric_start_listening]
  · intro h1 h2
    subst h1
    subst h2
    simp [nn_blibfabric_start_listening]
  · intro h1 h2 h3
    subst h1
    subst h2
    subst h3
    simp [nn_blibfabric_start_listening]
  · intro h oz
    simp only at h
    subst h
    simp [bStep, bUpdIdle, nn_blibfabric_handler]

/-- Witness for the amended C2 at concrete oracles: a bind failure stops
the socket and enters CLOSING, and the socket stopped event then starts
the backoff and enters WAITING. -/
theorem c2_listen_failures_witness :
    (nn_blibfabric_start_listening bInit ⟨true, true, false, true⟩ =
      some ⟨{ bInit with state := BState.closing, usockIdle := false },
        [BAct.usockStart, BAct.usockBind, BAct.usockStop]⟩) ∧
    (bStep { bInit with state := BState.closing, usockIdle := false }
        .usockStopped ⟨true, true, true, true⟩ =
      some ⟨{ bInit with state := BState.waiting, backoffIdle := false },
        [BAct.backoffStart]⟩) :=
  ⟨(c2_listen_failures bInit ⟨true, true, false, true⟩ rfl).2.1 rfl rfl,
    (c2_listen_failures
        { bInit with state := BState.closing, usockIdle := false }
        ⟨true, true, true, true⟩ rfl).2.2.2 rfl ⟨true, true, true, true⟩⟩

set_option maxHeartbeats 1600000 in
/-- The listener handler never reports the endpoint stopped. -/
theorem bHandler_no_epStopped (m : BMach) (e : BEv) (o : BOracle) (s : BStep)
    (hs : nn_blibfabric_handler m e o = some s) : BAct.epStopped ∉ s.acts := by
  obtain ⟨st, al, als, ni, pi, ui, bi⟩ := m
  cases e <;> cases st <;> cases al <;>
    simp_all [nn_blibfabric_handler, nn_blibfabric_start_listening,
      nn_blibfabric_start_accepting] <;>
    (try split_ifs at hs) <;> (try simp at hs) <;>
    (try obtain ⟨haux, hs⟩ := hs) <;> (try subst hs) <;> simp_all

set_option maxHeartbeats 1600000 in
/-- The listener shutdown function reports the endpoint stopped only with
an empty established collection, ending in the IDLE state. -/
theorem bShutdown_epStopped (m : BMach) (e : BEv) (s : BStep)
    (hs : nn_blibfabric_shutdown m e = some s)
    (hmem : BAct.epStopped ∈ s.acts) :
    s.mach.alibs = [] ∧ s.mach.state = BState.idle := by
  obtain ⟨st, al, als, ni, pi, ui, bi⟩ := m
  cases e <;> cases al <;>
    simp_all [nn_blibfabric_shutdown, bStoppingUsock, bFinishStopping,
      List.mem_map, List.mem_append] <;>
    (try split_ifs at hs) <;> (try simp at hs) <;> (try subst hs) <;>
    simp_all [List.mem_map, List.isEmpty_iff]

/-- Any listener step that reports the endpoint stopped leaves an empty
established collection and the IDLE state. -/
theorem bStep_epStopped (m : BMach) (e : BEv) (o : BOracle) (s : BStep)
    (hs : bStep m e o = some s) (hmem : BAct.epStopped ∈ s.acts) :
    s.mach.alibs = [] ∧ s.mach.state = BState.idle := by
  simp only [bStep] at hs
  split at hs
  · exact bShutdown_epStopped _ _ _ hs hmem
  · exact absurd hmem (bHandler_no_epStopped _ _ _ _ hs)

set_option maxHeartbeats 1600000 in
/-- C3: listener shutdown, from any state, proceeds in strict order: the
stop request stops the backoff timer first; if a pending acceptor exists
it is stopped and nothing further happens (in particular the socket is not
stopped) until it reports idle, at which point it is destroyed and only
then the socket is stopped; while the socket is not yet idle no action at
all is taken; once the socket reports idle, every established connection
is asked to stop, each stopped child is removed and destroyed, and the
endpoint reports itself stopped exactly when the collection is empty. -/
theorem c3_listener_shutdown_order (m : BMach) (i : Nat) (o : BOracle) :
    (∀ s, bStep m .fsmStop o = some s →
      s.acts.head? = some BAct.backoffStop) ∧
    (m.alib = some i → m.pendingIdle = false →
      bStep m .fsmStop o =
        some ⟨{ m with state := BState.stoppingAlib },
          [BAct.backoffStop, BAct.alibStop i]⟩) ∧
    (m.state = BState.stoppingAlib → m.alib = some i →
      m.pendingIdle = false →
      ∀ e s, bStep m e o = some s → e ≠ .fsmStop → e ≠ .alibStopped i →
        s.acts = [] ∧ s.mach.state = BState.stoppingAlib) ∧
    (m.state = BState.stoppingAlib → m.alib = some i → m.usockIdle = false →
      bStep m (.alibStopped i) o =
        some ⟨{ m with
            pendingIdle := true, alib := none,
            state := BState.stoppingUsock },
          [BAct.alibTerm i, BAct.alibFree i, BAct.usockStop]⟩) ∧
    (m.state = BState.stoppingUsock → m.usockIdle = false →
      ∀ e s, bStep m e o = some s → e ≠ .usockStopped → e ≠ .fsmStop →
        s.acts = []) ∧
    (m.state = BState.stoppingUsock → m.usockIdle = false → m.alibs ≠ [] →
      bStep m .usockStopped o =
        some ⟨{ m with usockIdle := true, state := BState.stoppingAlibs },
          m.alibs.map (fun j => BAct.alibStop j)⟩) ∧
    (m.state = BState.stoppingUsock → m.usockIdle = false → m.alibs = [] →
      bStep m .usockStopped o =
        some ⟨{ m with usockIdle := true, state := BState.idle },
          [BAct.fsmStoppedNoEvent, BAct.epStopped]⟩) ∧
    (m.state = BState.stoppingAlibs → m.alib = none →
      ∀ s, bStep m (.alibStopped i) o = some s →
        s.mach.alibs = m.alibs.erase i ∧
        (m.alibs.erase i ≠ [] →
          s.acts = [BAct.listErase i, BAct.alibTerm i, BAct.alibFree i] ∧
          s.mach.state = BState.stoppingAlibs) ∧
        (m.alibs.erase i = [] →
          s.acts = [BAct.listErase i, BAct.alibTerm i, BAct.alibFree i,
            BAct.fsmStoppedNoEvent, BAct.epStopped] ∧
          s.mach.state = BState.idle)) ∧
    (∀ e s, bStep m e o = some s → BAct.epStopped ∈ s.acts →
      s.mach.alibs = [] ∧ s.mach.state = BState.idle) := by
  obtain ⟨st, al, als, ni, pi, ui, bi⟩ := m
  refine ⟨?_, ?_, ?_, ?_, ?_, ?_, ?_, ?_, ?_⟩
  · intro s hs
    cases al <;>
      simp_all [bStep, bUpdIdle, nn_blibfabric_shutdown, bStoppingUsock,
        bFinishStopping] <;>
      (try split_ifs at hs) <;> (try simp at hs) <;> (try subst hs) <;>
      simp_all
  · intro h1 h2
    simp only at h1 h2
    subst h1
    subst h2
    simp [bStep, bUpdIdle, nn_blibfabric_shutdown]
  · intro h1 h2 h3 e s hs hne1 hne2
    simp only at h1 h2 h3
    subst h1
    subst h2
    subst h3
    cases e <;>
      simp_all [bStep, bUpdIdle, nn_blibfabric_shutdown, bStoppingUsock,
        bFinishStopping] <;>
      (try split_ifs at hs) <;> (try simp at hs) <;> (try subst hs) <;>
      simp_all
  · intro h1 h2 h3
    simp only at h1 h2 h3
    subst h1
    subst h2
    subst h3
    simp [bStep, bUpdIdle, nn_blibfabric_shutdown, bStoppingUsock]
  · intro h1 h2 e s hs hne1 hne2
    simp only at h1 h2
    subst h1
    subst h2
    cases e <;>
      simp_all [bStep, bUpdIdle, nn_blibfabric_shutdown, bStoppingUsock,
        bFinishStopping] <;>
      (try split_ifs at hs) <;> (try simp at hs) <;> (try subst hs) <;>
      simp_all
  · intro h1 h2 h3
    simp only at h1 h2
    subst h1
    subst h2
    simp [bStep, bUpdIdle, nn_blibfabric_shutdown, bStoppingUsock,
      bFinishStopping, h3]
  · intro h1 h2 h3
    simp only at h1 h2 h3
    subst h1
    subst h2
    subst h3
    simp [bStep, bUpdIdle, nn_blibfabric_shutdown, bStoppingUsock,
      bFinishStopping]
  · intro h1 h2 s hs
    simp only at h1 h2
    subst h1
    subst h2
    simp_all [bStep, bUpdIdle, nn_blibfabric_shutdown, bFinishStopping] <;>
      (try split_ifs at hs) <;> (try simp at hs) <;> (try subst hs) <;>
      simp_all <;> tauto
  · intro e s hs hmem
    exact bStep_epStopped _ e o s hs hmem

/-- Witness for C3: the stop request on a concrete ACTIVE listener with a
pending acceptor and one established connection stops the backoff and the
pending acceptor only. -/
theorem c3_listener_shutdown_order_witness :
    bStep { bInit with
        state := BState.active, alib := some 1, alibs := [0], nextId := 2,
        pendingIdle := false, usockIdle := false }
      .fsmStop ⟨true, true, true, true⟩ =
      some ⟨{ bInit with
          state := BState.stoppingAlib, alib := some 1, alibs := [0],
          nextId := 2, pendingIdle := false, usockIdle := false },
        [BAct.backoffStop, BAct.alibStop 1]⟩ :=
  (c3_listener_shutdown_order
    { bInit with
        state := BState.active, alib := some 1, alibs := [0], nextId := 2,
        pendingIdle := false, usockIdle := false }
    1 ⟨true, true, true, true⟩).2.1 rfl rfl

/-- Structural invariant of the listener machine: while ACTIVE there is a
pending acceptor, and every sub-machine identity in use (pending or
established) is below the allocation counter, so a freshly allocated
acceptor is distinct from every existing sub-machine. -/
def bWellFormed (m : BMach) : Prop :=
  (m.state = BState.active → m.alib ≠ none) ∧
  (∀ k, m.alib = some k → k < m.nextId) ∧
  (∀ j, j ∈ m.alibs → j < m.nextId)

set_option maxHeartbeats 3000000 in
/-- Every listener step preserves the structural invariant. -/
theorem bStep_preserves_wf (m : BMach) (e : BEv) (o : BOracle) (s : BStep)
    (hs : bStep m e o = some s) (hw : bWellFormed m) : bWellFormed s.mach := by
  obtain ⟨st, al, als, ni, pi, ui, bi⟩ := m
  obtain ⟨hw1, hw2, hw3⟩ := hw
  simp only [bWellFormed]
  cases e <;> cases st <;> cases al <;>
    simp_all [bStep, bUpdIdle, nn_blibfabric_handler,
      nn_blibfabric_shutdown, nn_blibfabric_start_listening,
      nn_blibfabric_start_accepting, bStoppingUsock, bFinishStopping] <;>
    (try split_ifs at hs) <;> (try simp at hs) <;>
    (try obtain ⟨haux, hs⟩ := hs) <;> (try subst hs) <;> (try simp_all)
  all_goals
    intro j hj
    try exact Nat.lt_succ_of_lt (hw3 j hj)
    try exact hw3 j (List.mem_of_mem_erase hj)
    try rcases hj with hj | hj
    try subst hj
    try exact Nat.lt_succ_of_lt (hw3 j hj)
    try omega

/-- The structural invariant propagates along any successful run. -/
theorem bRun_wf (tr : List (BEv × BOracle)) :
    ∀ m, bWellFormed m → ∀ m2, bRun m tr = some m2 → bWellFormed m2 := by
  induction tr with
  | nil =>
      intro m hw m2 h
      simp only [bRun, Option.some_inj] at h
      rw [← h]
      exact hw
  | cons p tr ih =>
      intro m hw m2 h
      obtain ⟨e, o⟩ := p
      simp only [bRun] at h
      cases hstep : bStep m e o with
      | none => rw [hstep] at h; simp at h
      | some s =>
          rw [hstep] at h
          exact ih s.mach (bStep_preserves_wf m e o s hstep hw) m2 h

/-- C4: in every reachable listener machine, the ACTIVE state implies a
pending acceptor exists.  When the pending acceptor reports accepted, it
is moved into the established collection (its identity appended, the slot
cleared) and in the same step a fresh acceptor with a new identity (never
equal to the accepted one) is allocated and started, the insertion being
immediately followed by the allocation and start of the fresh acceptor. -/
theorem c4_one_pending_acceptor :
    (∀ tr m, bRun bInit tr = some m → m.state = BState.active →
      m.alib ≠ none) ∧
    (∀ m i o, m.state = BState.active → m.alib = some i → i < m.nextId →
      bStep m (.alibAccepted i) o =
        some ⟨{ m with
            alibs := m.alibs ++ [i], alib := some m.nextId,
            nextId := m.nextId + 1, pendingIdle := false },
          [BAct.listInsert i, BAct.alibAlloc m.nextId,
            BAct.alibInit m.nextId, BAct.alibStart m.nextId]⟩ ∧
      m.nextId ≠ i) := by
  constructor
  · intro tr m hrun hact
    exact (bRun_wf tr bInit (by simp [bWellFormed, bInit]) m hrun).1 hact
  · intro m i o h1 h2 h3
    obtain ⟨st, al, als, ni, pi, ui, bi⟩ := m
    simp only at h1 h2 h3
    subst h1
    subst h2
    constructor
    · simp [bStep, bUpdIdle, nn_blibfabric_handler,
        nn_blibfabric_start_accepting]
    · exact Nat.ne_of_gt h3

/-- Witness for C4: the listener reached by a concrete successful start
has a pending acceptor while ACTIVE, and a concrete accepted event moves
sub-machine 0 into the collection and immediately starts fresh acceptor
1. -/
theorem c4_one_pending_acceptor_witness :
    ({ bInit with
        state := BState.active, alib := some 0, nextId := 1,
        pendingIdle := false, usockIdle := false } : BMach).alib ≠ none ∧
    (bStep { bInit with
        state := BState.active, alib := some 0, nextId := 1,
        pendingIdle := false, usockIdle := false }
      (.alibAccepted 0) ⟨true, true, true, true⟩ =
      some ⟨{ bInit with
          state := BState.active, alibs := [0], alib := some 1, nextId := 2,
          pendingIdle := false, usockIdle := false },
        [BAct.listInsert 0, BAct.alibAlloc 1, BAct.alibInit 1,
          BAct.alibStart 1]⟩) :=
  ⟨c4_one_pending_acceptor.1 [(.fsmStart, ⟨true, true, true, true⟩)]
      { bInit with
          state := BState.active, alib := some 0, nextId := 1,
          pendingIdle := false, usockIdle := false } rfl rfl,
    (c4_one_pending_acceptor.2
      { bInit with
          state := BState.active, alib := some 0, nextId := 1,
          pendingIdle := false, usockIdle := false }
      0 ⟨true, true, true, true⟩ rfl rfl (by decide)).1⟩

end Libfabric
